import Mathlib

/-!
Verification of the toouk auth service against its specification.

The definitions below are a shallow embedding of the TypeScript source:
  * `verifyPassword`, `register`-, `login`-, `refreshToken`-, `logout`-,
    `logoutAll`- and `changePassword`-operations from
    src/src/workers/authJobs.ts (auth controller part),
  * `cleanupExpiredSessions` from the cron-job part of the same file,
  * the event consumers (`user.created`, `user.deactivated`) from the
    queue consumer module.
The record store (Prisma) is modelled as in-memory lists with the
documented single-operation semantics (findFirst/findUnique scan in row
order, deleteMany filters, create appends).  Cryptographic primitives
(bcryptjs, node crypto SHA-256) are external collaborators and appear as
an abstract `Crypto` structure; theorems that need facts about them take
those facts as explicit hypotheses.
-/

namespace ToukAuth

/-! ## Credential shape tests (verifyPassword, authJobs.ts lines 162-186) -/

/-- JS regex `.` : any character except a line terminator. -/
def isJsDot (c : Char) : Bool :=
  !(c == '\n' || c == '\r' || c == '\u2028' || c == '\u2029')

/-- the tail `.` repeated exactly 53 times, anchored at the end. -/
def remainder53 (l : List Char) : Bool :=
  l.length == 53 && l.all isJsDot

/-- the cost part of the bcrypt regex: one or two digits, then a dollar,
then the 53-character remainder (the two regex alternatives). -/
def costAndRemainder (l : List Char) : Bool :=
  (match l with
   | d1 :: '$' :: tail => d1.isDigit && remainder53 tail
   | _ => false)
  ||
  (match l with
   | d1 :: d2 :: '$' :: tail => d1.isDigit && d2.isDigit && remainder53 tail
   | _ => false)

/-- `bcryptPattern.test storedHash` for the source's anchored regex:
dollar, `2`, one of `a b y`, dollar, cost, dollar, 53 characters. -/
def bcryptShapeTest (s : String) : Bool :=
  match s.data with
  | '$' :: '2' :: c :: '$' :: l =>
      (c == 'a' || c == 'b' || c == 'y') && costAndRemainder l
  | _ => false

/-- a hexadecimal digit, case-insensitive, as in the source's `[a-f0-9]`
with the `i` flag. -/
def isHexChar (c : Char) : Bool :=
  ('0' ≤ c && c ≤ '9') || ('a' ≤ c && c ≤ 'f') || ('A' ≤ c && c ≤ 'F')

/-- `storedHash.length === 64` and the anchored one-or-more hex-digit
regex with the case-insensitive flag. -/
def sha256ShapeTest (s : String) : Bool :=
  s.length == 64 && (!s.data.isEmpty && s.data.all isHexChar)

/-! ## Abstract cryptographic primitives (bcryptjs / node crypto) -/

/-- The external hashing libraries used by the service.  `bcryptHash`
is `bcrypt.hash(password, cost)`, `bcryptCompare` is
`bcrypt.compare(plain, storedHash)`, `sha256hex` is the helper
`hashPasswordSHA256` (SHA-256 hex digest). -/
structure Crypto where
  bcryptHash : String → Nat → String
  bcryptCompare : String → String → Bool
  sha256hex : String → String

/-- `verifyPassword(plainPassword, storedHash)` of the source: classify
the stored credential by shape, first match wins, and verify with the
matching scheme. -/
def verifyPassword (C : Crypto) (plainPassword storedHash : String) : Bool :=
  if bcryptShapeTest storedHash then
    C.bcryptCompare plainPassword storedHash
  else if sha256ShapeTest storedHash then
    C.sha256hex plainPassword == storedHash
  else
    plainPassword == storedHash

/-- The three credential encodings of the spec, section 4.1. -/
inductive HashKind where
  | adaptive
  | legacyDigest
  | plainText
deriving DecidableEq

/-- The shape classification the source's dispatch implements, in its
order: adaptive bcrypt first, then legacy 64-hex digest, then the
plaintext fallback. -/
def classify (storedHash : String) : HashKind :=
  if bcryptShapeTest storedHash then HashKind.adaptive
  else if sha256ShapeTest storedHash then HashKind.legacyDigest
  else HashKind.plainText

/-- `stored` is a correct credential for the password `correct` under the
encoding its shape selects, assuming the cryptographic primitives behave
ideally on it: bcrypt comparison accepts exactly the correct password,
the legacy digest matches and is collision-free at this value, the
plaintext fallback is literal equality. -/
def IsCredentialFor (C : Crypto) (stored correct : String) : Prop :=
  (classify stored = HashKind.adaptive →
      ∀ p, C.bcryptCompare p stored = (p == correct)) ∧
  (classify stored = HashKind.legacyDigest →
      C.sha256hex correct = stored ∧ ∀ p, C.sha256hex p = stored → p = correct) ∧
  (classify stored = HashKind.plainText → stored = correct)

/-! ## Data model: the store's rows (spec section 3, Prisma models) -/

/-- A row of the User table: id, unique email, unique username, encoded
credential, role, active flag, timestamps (milliseconds since epoch). -/
structure UserRec where
  id : String
  email : String
  username : String
  password : String
  role : String
  isActive : Bool
  createdAt : Nat
  updatedAt : Nat
deriving DecidableEq

/-- A row of the Session table. -/
structure SessionRec where
  userId : String
  token : String
  expiresAt : Nat
deriving DecidableEq

/-- A row of the RefreshToken table. -/
structure RefreshTokenRec where
  userId : String
  token : String
  expiresAt : Nat
deriving DecidableEq

/-- The store's state: the three tables, in row order. -/
structure AuthState where
  users : List UserRec
  sessions : List SessionRec
  refreshTokens : List RefreshTokenRec
deriving DecidableEq

/-- Sessions belonging to a user. -/
def sessionsOf (uid : String) (s : AuthState) : List SessionRec :=
  s.sessions.filter (fun r => r.userId == uid)

/-- Refresh tokens belonging to a user. -/
def tokensOf (uid : String) (s : AuthState) : List RefreshTokenRec :=
  s.refreshTokens.filter (fun r => r.userId == uid)

/-- Users holding a given email. -/
def usersWithEmail (e : String) (s : AuthState) : List UserRec :=
  s.users.filter (fun u => u.email == e)

/-! ## Outcomes

The source reports errors as HTTP status plus message; each distinct
rejection response is one constructor here.  `taxonOf` maps them onto the
spec's abstract error taxonomy (section 7). -/

/-- One constructor per distinct rejection response of the source. -/
inductive AuthErr where
  /-- status 400: a required request field is missing or too short -/
  | validation
  /-- status 401 at login: "Invalid credentials" (user not found, inactive, or wrong password) -/
  | invalidCredentials
  /-- status 401 at refresh: "Invalid or expired refresh token" -/
  | invalidOrExpiredToken
  /-- status 401 at refresh: "User account is inactive" -/
  | inactiveUser
  /-- status 400 at register: duplicate email or username -/
  | conflict
  /-- status 404: "User not found" -/
  | notFound
  /-- status 401: "User not authenticated" -/
  | notAuthenticated
  /-- status 400 at changePassword: "Current password is incorrect" -/
  | currentPasswordIncorrect
  /-- status 500: the store failed (e.g. a required relation row is missing) -/
  | storeFailure
deriving DecidableEq

/-- The spec's error taxonomy (section 7). -/
inductive Taxon where
  | VALIDATION
  | AUTH_INVALID
  | AUTH_REQUIRED
  | AUTH_FORBIDDEN
  | CONFLICT
  | NOT_FOUND
  | DEPENDENCY_FAILURE
deriving DecidableEq

/-- Modelled from the spec: the mapping of the source's rejection
responses onto the abstract taxonomy of section 7 and the refresh
contract of section 4.2 ("fail with AUTH_INVALID if absent or expired;
fail with AUTH_FORBIDDEN if the owning user is inactive").  The taxonomy
itself is not code of the repository. -/
def taxonOf : AuthErr → Taxon
  | AuthErr.validation => Taxon.VALIDATION
  | AuthErr.invalidCredentials => Taxon.AUTH_INVALID
  | AuthErr.invalidOrExpiredToken => Taxon.AUTH_INVALID
  | AuthErr.inactiveUser => Taxon.AUTH_FORBIDDEN
  | AuthErr.conflict => Taxon.CONFLICT
  | AuthErr.notFound => Taxon.NOT_FOUND
  | AuthErr.notAuthenticated => Taxon.AUTH_REQUIRED
  | AuthErr.currentPasswordIncorrect => Taxon.AUTH_INVALID
  | AuthErr.storeFailure => Taxon.DEPENDENCY_FAILURE

/-- The payload of a signed access token: {userId, email, role}. -/
structure JwtPayload where
  userId : String
  email : String
  role : String
deriving DecidableEq

/-- REFRESH_TOKEN_EXPIRES_IN = 7 days in milliseconds. -/
def refreshTokenExpiresInMs : Nat := 7 * 24 * 60 * 60 * 1000

/-- Session lifetime at login = 24 hours in milliseconds. -/
def sessionExpiresInMs : Nat := 24 * 60 * 60 * 1000

/-! ## Synchronous operations (authJobs.ts, auth controller part)

Randomly generated values (record ids, opaque token values) and the
current time are inputs of the embedded operations.  Each operation
returns the store state after the request together with the response. -/

/-- What a successful registration returns: the created user's id, the
signed access-token payload and the new opaque refresh token. -/
structure RegisterOut where
  userId : String
  accessToken : JwtPayload
  refreshToken : String
deriving DecidableEq

/-- `register` (lines 191-281): validate the three fields, reject a
duplicate email or username, hash the password with the adaptive
algorithm at cost 12, create the user (active) and a refresh-token row,
mint an access token. -/
def registerOp (C : Crypto) (now : Nat) (email username password role : String)
    (newId newRefreshTok : String) (s : AuthState) :
    AuthState × Except AuthErr RegisterOut :=
  if email == "" || username == "" || password == "" then
    (s, Except.error AuthErr.validation)
  else
    match s.users.find? (fun u => u.email == email || u.username == username) with
    | some _ => (s, Except.error AuthErr.conflict)
    | none =>
        let hashed := C.bcryptHash password 12
        let u : UserRec :=
          ⟨newId, email, username, hashed, role, true, now, now⟩
        let rt : RefreshTokenRec :=
          ⟨newId, newRefreshTok, now + refreshTokenExpiresInMs⟩
        (⟨s.users ++ [u], s.sessions, s.refreshTokens ++ [rt]⟩,
         Except.ok ⟨newId, ⟨newId, email, role⟩, newRefreshTok⟩)

/-- What a successful login returns. -/
structure LoginOut where
  userId : String
  accessToken : JwtPayload
  refreshToken : String
  sessionToken : String
deriving DecidableEq

/-- `login` (lines 286-387): validate the two fields, find the first
active user whose email or username matches, verify the password with
the multi-encoding verifier, then create a refresh-token row and a
session row and mint an access token.  Both failure branches answer
401 "Invalid credentials". -/
def loginOp (C : Crypto) (now : Nat) (emailOrUsername password : String)
    (newRefreshTok newSessionTok : String) (s : AuthState) :
    AuthState × Except AuthErr LoginOut :=
  if emailOrUsername == "" || password == "" then
    (s, Except.error AuthErr.validation)
  else
    match s.users.find?
        (fun u => (u.email == emailOrUsername || u.username == emailOrUsername)
                  && u.isActive) with
    | none => (s, Except.error AuthErr.invalidCredentials)
    | some u =>
        if verifyPassword C password u.password then
          let rt : RefreshTokenRec :=
            ⟨u.id, newRefreshTok, now + refreshTokenExpiresInMs⟩
          let sess : SessionRec :=
            ⟨u.id, newSessionTok, now + sessionExpiresInMs⟩
          (⟨s.users, s.sessions ++ [sess], s.refreshTokens ++ [rt]⟩,
           Except.ok ⟨u.id, ⟨u.id, u.email, u.role⟩, newRefreshTok, newSessionTok⟩)
        else (s, Except.error AuthErr.invalidCredentials)

/-- `refreshToken` (lines 392-441): look the opaque token up; absent or
expired is 401 "Invalid or expired refresh token"; an inactive owner is
401 "User account is inactive"; otherwise mint a new access token from
the owner's current fields.  The operation writes nothing to the store. -/
def refreshOp (now : Nat) (tok : String) (s : AuthState) :
    AuthState × Except AuthErr JwtPayload :=
  if tok == "" then (s, Except.error AuthErr.validation)
  else
    match s.refreshTokens.find? (fun r => r.token == tok) with
    | none => (s, Except.error AuthErr.invalidOrExpiredToken)
    | some tr =>
        if decide (tr.expiresAt < now) then
          (s, Except.error AuthErr.invalidOrExpiredToken)
        else
          match s.users.find? (fun u => u.id == tr.userId) with
          | none => (s, Except.error AuthErr.storeFailure)
          | some u =>
              if u.isActive then (s, Except.ok ⟨u.id, u.email, u.role⟩)
              else (s, Except.error AuthErr.inactiveUser)

/-- `logout` (lines 446-476): delete the refresh-token row with the given
value when one was sent, delete the session row with the given value when
one was sent; each argument is optional and `none` models a missing (or
falsy) request field. -/
def logoutOp (refreshTok sessionTok : Option String) (s : AuthState) : AuthState :=
  let s1 :=
    match refreshTok with
    | some rt => { s with refreshTokens := s.refreshTokens.filter (fun r => !(r.token == rt)) }
    | none => s
  match sessionTok with
  | some st => { s1 with sessions := s1.sessions.filter (fun r => !(r.token == st)) }
  | none => s1

/-- `logoutAll` (lines 481-506): delete every session row and every
refresh-token row of the authenticated user. -/
def logoutAllOp (userId : String) (s : AuthState) : AuthState :=
  { s with
    sessions := s.sessions.filter (fun r => !(r.userId == userId)),
    refreshTokens := s.refreshTokens.filter (fun r => !(r.userId == userId)) }

/-- `changePassword` (lines 546-605): validate the fields, load the user,
check the current password with `bcrypt.compare` (the source does NOT use
the multi-encoding `verifyPassword` here), store the adaptive hash of the
new password and delete all sessions and refresh tokens of the user. -/
def changePasswordOp (C : Crypto) (userId : Option String)
    (currentPassword newPassword : String) (s : AuthState) :
    AuthState × Except AuthErr Unit :=
  match userId with
  | none => (s, Except.error AuthErr.notAuthenticated)
  | some uid =>
      if currentPassword == "" || newPassword == "" then
        (s, Except.error AuthErr.validation)
      else if decide (newPassword.length < 6) then
        (s, Except.error AuthErr.validation)
      else
        match s.users.find? (fun u => u.id == uid) with
        | none => (s, Except.error AuthErr.notFound)
        | some u =>
            if C.bcryptCompare currentPassword u.password then
              let newHash := C.bcryptHash newPassword 12
              (⟨s.users.map (fun v => if v.id == uid then { v with password := newHash } else v),
                s.sessions.filter (fun r => !(r.userId == uid)),
                s.refreshTokens.filter (fun r => !(r.userId == uid))⟩,
               Except.ok ())
            else (s, Except.error AuthErr.currentPasswordIncorrect)

/-! ## Housekeeping (authJobs.ts, cron-job part, lines 8-39) -/

/-- The summary event payload of `auth.sessionsCleanedUp`. -/
structure CleanupSummary where
  expiredSessions : Nat
  expiredTokens : Nat
deriving DecidableEq

/-- `cleanupExpiredSessions`: delete every session and refresh-token row
with `expiresAt < now` and report the two deletion counts. -/
def cleanupExpiredSessions (now : Nat) (s : AuthState) :
    AuthState × CleanupSummary :=
  let deadSessions := s.sessions.filter (fun r => decide (r.expiresAt < now))
  let liveSessions := s.sessions.filter (fun r => !decide (r.expiresAt < now))
  let deadTokens := s.refreshTokens.filter (fun r => decide (r.expiresAt < now))
  let liveTokens := s.refreshTokens.filter (fun r => !decide (r.expiresAt < now))
  (⟨s.users, liveSessions, liveTokens⟩,
   ⟨deadSessions.length, deadTokens.length⟩)

/-! ## Identity reconciliation (the queue consumer module)

Each consumer wraps its body in try/catch and logs failures, so a failing
body leaves the store unchanged; the handlers below are total state
transformers with the caught-failure branches returning the input state. -/

/-- The `user.created` event payload (spec section 6): email, optional
password or pre-hashed password, role, active flag, optional creation
time.  `none` models a missing field. -/
structure CreatedPayload where
  email : String
  password : Option String
  hashedPassword : Option String
  role : String
  isActive : Bool
  createdAt : Option Nat
deriving DecidableEq

/-- JS truthiness of an optional string field: present and non-empty. -/
def truthy : Option String → Bool
  | none => false
  | some v => !(v == "")

/-- the `finalPassword` selection of the `user.created` consumer:
`hashedPassword` when truthy, else `password` when truthy, else the
handler throws. -/
def finalPasswordOf (p : CreatedPayload) : Option String :=
  if truthy p.hashedPassword then p.hashedPassword
  else if truthy p.password then p.password
  else none

/-- Modelled from the spec: the User table's unique constraints on email
and on username (spec section 3; the Prisma schema is not among the
repository's files).  `prisma.user.create` violates one of them exactly
when an existing row matches the new email or the new username — the
consumer stores the event's email as the username, so both checks are
against `p.email`. -/
def createdKeyTaken (email : String) (s : AuthState) : Bool :=
  s.users.any (fun u => u.email == email || u.username == email)

/-- The `user.created` consumer: pick the credential (throw when neither
field is truthy), then `prisma.user.create` with username := email; a
thrown error (missing credential, unique-constraint violation) is caught
and leaves the store unchanged. -/
def userCreatedHandler (now : Nat) (newId : String) (p : CreatedPayload)
    (s : AuthState) : AuthState :=
  match finalPasswordOf p with
  | none => s
  | some pw =>
      if createdKeyTaken p.email s then s
      else
        { s with users := s.users ++
            [⟨newId, p.email, p.email, pw, p.role, p.isActive,
              p.createdAt.getD now, now⟩] }

/-- The `user.deactivated` consumer: set the user's active flag to false
and delete every session row and refresh-token row of that user (the
three store calls are issued together; an absent user row leaves the
users table unchanged). -/
def userDeactivatedHandler (userId : String) (s : AuthState) : AuthState :=
  ⟨s.users.map (fun u => if u.id == userId then { u with isActive := false } else u),
   s.sessions.filter (fun r => !(r.userId == userId)),
   s.refreshTokens.filter (fun r => !(r.userId == userId))⟩

/-! ## Theorems -/

/-- C1: for every stored credential in one of the three encodings,
`verifyPassword` classifies it by shape in the fixed order (adaptive
bcrypt pattern first, then legacy 64-hex digest, then plaintext
fallback) with first match winning, accepts exactly the correct
password of that encoding and rejects every other password, of equal
or different length. -/
theorem verifyPassword_three_encodings (C : Crypto) (stored correct : String)
    (h : IsCredentialFor C stored correct) :
    (∀ p, verifyPassword C p stored =
      match classify stored with
      | HashKind.adaptive => C.bcryptCompare p stored
      | HashKind.legacyDigest => (C.sha256hex p == stored)
      | HashKind.plainText => (p == stored)) ∧
    (∀ p, (verifyPassword C p stored = true ↔ p = correct)) := by
  obtain ⟨ha, hl, hp⟩ := h
  by_cases hb : bcryptShapeTest stored = true
  · have hcl : classify stored = HashKind.adaptive := by simp [classify, hb]
    refine ⟨fun p => by simp [verifyPassword, hb, hcl], fun p => ?_⟩
    have hcmp := ha hcl p
    simp [verifyPassword, hb, hcmp]
  · by_cases hs : sha256ShapeTest stored = true
    · have hcl : classify stored = HashKind.legacyDigest := by
        simp [classify, hb, hs]
      obtain ⟨hdig, hinj⟩ := hl hcl
      refine ⟨fun p => by simp [verifyPassword, hb, hs, hcl], fun p => ?_⟩
      simp only [verifyPassword, hb, hs, if_true, if_false, Bool.false_eq_true,
        beq_iff_eq]
      exact ⟨fun hpe => hinj p hpe, fun hpe => hpe ▸ hdig⟩
    · have hcl : classify stored = HashKind.plainText := by
        simp [classify, hb, hs]
      have hsc := hp hcl
      subst hsc
      refine ⟨fun p => by simp [verifyPassword, hb, hs, hcl], fun p => ?_⟩
      simp [verifyPassword, hb, hs]

/-- A crypto instance for concrete evaluations: bcrypt comparison always
fails, digests are empty. -/
def cryptoA : Crypto := ⟨fun _ _ => "", fun _ _ => false, fun _ => ""⟩

/-- C1 witness: on the concrete plaintext-fallback credential "pw0",
`verifyPassword` accepts "pw0" and rejects "guess". -/
theorem verifyPassword_three_encodings_app :
    verifyPassword cryptoA "pw0" "pw0" = true ∧
    verifyPassword cryptoA "guess" "pw0" = false := by
  have h : IsCredentialFor cryptoA "pw0" "pw0" := by
    refine ⟨fun hc => absurd hc (by decide), fun hc => absurd hc (by decide),
      fun _ => rfl⟩
  have main := verifyPassword_three_encodings cryptoA "pw0" "pw0" h
  refine ⟨(main.2 "pw0").mpr rfl, ?_⟩
  cases hv : verifyPassword cryptoA "guess" "pw0"
  · rfl
  · exact absurd ((main.2 "guess").mp hv) (by decide)

/-- C2: a refresh request with a token that is present in the store and
unexpired, but whose owning user is inactive, fails with AUTH_FORBIDDEN
(the distinct "User account is inactive" rejection), not AUTH_INVALID,
mints no new access token and leaves the store unchanged. -/
theorem refresh_inactive_owner_forbidden (now : Nat) (tok : String)
    (s : AuthState) (tr : RefreshTokenRec) (u : UserRec)
    (htok : ¬ tok = "")
    (hfind : s.refreshTokens.find? (fun r => r.token == tok) = some tr)
    (hexp : ¬ tr.expiresAt < now)
    (huser : s.users.find? (fun v => v.id == tr.userId) = some u)
    (hinactive : u.isActive = false) :
    refreshOp now tok s = (s, Except.error AuthErr.inactiveUser) ∧
    taxonOf AuthErr.inactiveUser = Taxon.AUTH_FORBIDDEN ∧
    taxonOf AuthErr.inactiveUser ≠ taxonOf AuthErr.invalidOrExpiredToken := by
  have ht : (tok == "") = false := by simp [htok]
  refine ⟨?_, rfl, by decide⟩
  simp [refreshOp, ht, hfind, hexp, huser, hinactive]

/-- An inactive user holding one live refresh token, for concrete runs. -/
def inactiveOwnerState : AuthState :=
  ⟨[⟨"u1", "a@x.com", "a", "pw0", "USER", false, 0, 0⟩],
   [], [⟨"u1", "rtok1", 1000⟩]⟩

/-- C2 witness: the concrete inactive owner with a live token is refused
with the inactive-account rejection. -/
theorem refresh_inactive_owner_forbidden_app :
    refreshOp 500 "rtok1" inactiveOwnerState =
      (inactiveOwnerState, Except.error AuthErr.inactiveUser) :=
  (refresh_inactive_owner_forbidden 500 "rtok1" inactiveOwnerState
    ⟨"u1", "rtok1", 1000⟩ ⟨"u1", "a@x.com", "a", "pw0", "USER", false, 0, 0⟩
    (by decide) (by decide) (by decide) (by decide) (by decide)).1

/-- C5: a refresh request whose token is absent from the store, or whose
stored row expired strictly before now, fails with AUTH_INVALID (the
"Invalid or expired refresh token" rejection), mints no new access token
and leaves the store state unchanged. -/
theorem refresh_absent_or_expired_invalid (now : Nat) (tok : String)
    (s : AuthState) (htok : ¬ tok = "") :
    (s.refreshTokens.find? (fun r => r.token == tok) = none →
       refreshOp now tok s = (s, Except.error AuthErr.invalidOrExpiredToken)) ∧
    (∀ tr, s.refreshTokens.find? (fun r => r.token == tok) = some tr →
       tr.expiresAt < now →
       refreshOp now tok s = (s, Except.error AuthErr.invalidOrExpiredToken)) ∧
    taxonOf AuthErr.invalidOrExpiredToken = Taxon.AUTH_INVALID := by
  have ht : (tok == "") = false := by simp [htok]
  refine ⟨fun hnone => by simp [refreshOp, ht, hnone],
    fun tr hsome hlt => by simp [refreshOp, ht, hsome, hlt], rfl⟩

/-- C5 witness: on the concrete store, refreshing with the unknown token
"zz" and refreshing with the token "rtok1" after its expiry both yield
the invalid-token rejection and change nothing. -/
theorem refresh_absent_or_expired_invalid_app :
    refreshOp 500 "zz" inactiveOwnerState =
      (inactiveOwnerState, Except.error AuthErr.invalidOrExpiredToken) ∧
    refreshOp 2000 "rtok1" inactiveOwnerState =
      (inactiveOwnerState, Except.error AuthErr.invalidOrExpiredToken) :=
  ⟨(refresh_absent_or_expired_invalid 500 "zz" inactiveOwnerState
      (by decide)).1 (by decide),
   (refresh_absent_or_expired_invalid 2000 "rtok1" inactiveOwnerState
      (by decide)).2.1 ⟨"u1", "rtok1", 1000⟩ (by decide) (by decide)⟩

/-- C3: replaying a `user.created` event with the identical payload
converges — the second application leaves the state exactly as after one
application — and application never drives the number of users holding
the event's unique email above one (the consumer stores the event's
email as the username as well, so the same bound covers the username
key).  The id and timestamp drawn at each delivery may differ. -/
theorem userCreated_replay_converges (p : CreatedPayload) (s : AuthState)
    (now₁ now₂ : Nat) (id₁ id₂ : String) :
    userCreatedHandler now₂ id₂ p (userCreatedHandler now₁ id₁ p s) =
      userCreatedHandler now₁ id₁ p s ∧
    (usersWithEmail p.email (userCreatedHandler now₁ id₁ p s)).length ≤
      max 1 (usersWithEmail p.email s).length := by
  cases hfp : finalPasswordOf p with
  | none =>
    have h1 : userCreatedHandler now₁ id₁ p s = s := by
      simp [userCreatedHandler, hfp]
    have h2 : userCreatedHandler now₂ id₂ p s = s := by
      simp [userCreatedHandler, hfp]
    rw [h1, h2]
    exact ⟨rfl, le_max_right 1 _⟩
  | some pw =>
    by_cases hk : createdKeyTaken p.email s = true
    · have h1 : userCreatedHandler now₁ id₁ p s = s := by
        simp [userCreatedHandler, hfp, hk]
      have h2 : userCreatedHandler now₂ id₂ p s = s := by
        simp [userCreatedHandler, hfp, hk]
      rw [h1, h2]
      exact ⟨rfl, le_max_right 1 _⟩
    · have hk0 : createdKeyTaken p.email s = false := by
        simpa using hk
      have h1 : userCreatedHandler now₁ id₁ p s =
          { s with users := s.users ++
              [⟨id₁, p.email, p.email, pw, p.role, p.isActive,
                p.createdAt.getD now₁, now₁⟩] } := by
        simp [userCreatedHandler, hfp, hk0]
      have hk1 : createdKeyTaken p.email
          { s with users := s.users ++
              [⟨id₁, p.email, p.email, pw, p.role, p.isActive,
                p.createdAt.getD now₁, now₁⟩] } = true := by
        simp [createdKeyTaken]
      have h2 : userCreatedHandler now₂ id₂ p
          { s with users := s.users ++
              [⟨id₁, p.email, p.email, pw, p.role, p.isActive,
                p.createdAt.getD now₁, now₁⟩] } =
          { s with users := s.users ++
              [⟨id₁, p.email, p.email, pw, p.role, p.isActive,
                p.createdAt.getD now₁, now₁⟩] } := by
        simp [userCreatedHandler, hfp, hk1]
      have hnone : s.users.filter (fun u => u.email == p.email) = [] := by
        rw [List.filter_eq_nil_iff]
        intro u hu
        have := List.any_eq_false.mp hk0 u hu
        simp at this ⊢
        exact fun he => absurd he this.1
      refine ⟨by rw [h1, h2], ?_⟩
      rw [h1]
      simp [usersWithEmail, List.filter_append, hnone]

/-- C6: applying a `user.deactivated` event sets the user's active flag
to false and removes every session and refresh-token row of that user;
a second application is a no-op, leaving exactly the state after one
application, and rows of other users' sessions and tokens are kept. -/
theorem userDeactivated_idempotent_cascade (uid : String) (s : AuthState) :
    userDeactivatedHandler uid (userDeactivatedHandler uid s) =
      userDeactivatedHandler uid s ∧
    (∀ u, u ∈ (userDeactivatedHandler uid s).users → u.id = uid →
        u.isActive = false) ∧
    sessionsOf uid (userDeactivatedHandler uid s) = [] ∧
    tokensOf uid (userDeactivatedHandler uid s) = [] ∧
    (∀ r, r ∈ (userDeactivatedHandler uid s).sessions ↔
        r ∈ s.sessions ∧ r.userId ≠ uid) ∧
    (∀ r, r ∈ (userDeactivatedHandler uid s).refreshTokens ↔
        r ∈ s.refreshTokens ∧ r.userId ≠ uid) := by
  refine ⟨?_, ?_, ?_, ?_, ?_, ?_⟩
  · unfold userDeactivatedHandler
    simp only [AuthState.mk.injEq]
    refine ⟨?_, ?_, ?_⟩
    · rw [List.map_map]
      congr 1
      funext u
      by_cases h : u.id == uid <;> simp [h, Function.comp]
    · rw [List.filter_filter]
      congr 1
      funext r
      exact Bool.and_self _
    · rw [List.filter_filter]
      congr 1
      funext r
      exact Bool.and_self _
  · intro u hu huid
    obtain ⟨v, hv, rfl⟩ := List.mem_map.mp hu
    by_cases h : v.id == uid
    · simp [h]
    · simp only [h, if_false, Bool.false_eq_true] at huid ⊢
      exact absurd huid (by simpa using h)
  · simp [sessionsOf, userDeactivatedHandler, List.filter_filter]
  · simp [tokensOf, userDeactivatedHandler, List.filter_filter]
  · intro r
    simp [userDeactivatedHandler, List.mem_filter]
  · intro r
    simp [userDeactivatedHandler, List.mem_filter]

/-- Splitting a list by a Bool predicate preserves its length. -/
theorem length_filter_not_add (l : List α) (f : α → Bool) :
    (l.filter f).length + (l.filter (fun a => !(f a))).length = l.length := by
  induction l with
  | nil => rfl
  | cons a t ih =>
      by_cases h : f a = true <;> simp [List.filter_cons, h] <;> omega

/-- C9: one expiry sweep deletes exactly the session and refresh-token
rows whose `expiresAt` is strictly before now — a row at or after now is
kept, the users table is untouched — and the summary event's two count
fields equal the numbers of rows deleted from the respective tables. -/
theorem cleanup_deletes_exactly_expired (now : Nat) (s : AuthState) :
    (∀ r, r ∈ (cleanupExpiredSessions now s).1.sessions ↔
        r ∈ s.sessions ∧ now ≤ r.expiresAt) ∧
    (∀ r, r ∈ (cleanupExpiredSessions now s).1.refreshTokens ↔
        r ∈ s.refreshTokens ∧ now ≤ r.expiresAt) ∧
    (cleanupExpiredSessions now s).1.users = s.users ∧
    (cleanupExpiredSessions now s).2.expiredSessions +
        (cleanupExpiredSessions now s).1.sessions.length =
      s.sessions.length ∧
    (cleanupExpiredSessions now s).2.expiredTokens +
        (cleanupExpiredSessions now s).1.refreshTokens.length =
      s.refreshTokens.length ∧
    (cleanupExpiredSessions now s).2.expiredSessions =
      (s.sessions.filter (fun r => decide (r.expiresAt < now))).length ∧
    (cleanupExpiredSessions now s).2.expiredTokens =
      (s.refreshTokens.filter (fun r => decide (r.expiresAt < now))).length := by
  refine ⟨?_, ?_, rfl, ?_, ?_, rfl, rfl⟩
  · intro r
    simp [cleanupExpiredSessions, List.mem_filter, Nat.not_lt]
  · intro r
    simp [cleanupExpiredSessions, List.mem_filter, Nat.not_lt]
  · exact length_filter_not_add s.sessions (fun r => decide (r.expiresAt < now))
  · exact length_filter_not_add s.refreshTokens (fun r => decide (r.expiresAt < now))

/-- C8: for a user holding exactly one session and one refresh token
from a single login, logout carrying only that session token deletes
exactly that session — the user's session count drops to 0 while the
refresh-token table is untouched — and a following logoutAll for the
user empties both of the user's row sets. -/
theorem logout_then_logoutAll_counts (uid st : String) (se : Nat)
    (rt : RefreshTokenRec) (s : AuthState)
    (hsess : sessionsOf uid s = [⟨uid, st, se⟩])
    (htoks : tokensOf uid s = [rt]) :
    (sessionsOf uid (logoutOp none (some st) s)).length = 0 ∧
    (logoutOp none (some st) s).refreshTokens = s.refreshTokens ∧
    (tokensOf uid (logoutOp none (some st) s)).length = 1 ∧
    (sessionsOf uid (logoutAllOp uid (logoutOp none (some st) s))).length = 0 ∧
    (tokensOf uid (logoutAllOp uid (logoutOp none (some st) s))).length = 0 := by
  have hs1 : sessionsOf uid (logoutOp none (some st) s) = [] := by
    unfold sessionsOf logoutOp
    rw [List.filter_comm]
    rw [show s.sessions.filter (fun r => r.userId == uid) = sessionsOf uid s from rfl,
      hsess]
    simp
  refine ⟨by rw [hs1]; rfl, rfl, ?_, ?_, ?_⟩
  · rw [show tokensOf uid (logoutOp none (some st) s) = tokensOf uid s from rfl,
      htoks]
    rfl
  · simp [sessionsOf, logoutAllOp, List.filter_filter]
  · simp [tokensOf, logoutAllOp, List.filter_filter]

/-- A store with one user who owns one session and one refresh token,
and a second user's rows, for concrete runs. -/
def singleLoginState : AuthState :=
  ⟨[⟨"u1", "a@x.com", "a", "pw0", "USER", true, 0, 0⟩],
   [⟨"u1", "st1", 10⟩, ⟨"u2", "st2", 30⟩],
   [⟨"u1", "rt1", 20⟩, ⟨"u2", "rt2", 40⟩]⟩

/-- C8 witness: in the concrete store, logout with only the session
token empties u1's sessions, keeps the refresh-token table, and
logoutAll then empties u1's tokens too. -/
theorem logout_then_logoutAll_counts_app :
    (sessionsOf "u1" (logoutOp none (some "st1") singleLoginState)).length = 0 ∧
    (logoutOp none (some "st1") singleLoginState).refreshTokens =
      singleLoginState.refreshTokens ∧
    (tokensOf "u1" (logoutOp none (some "st1") singleLoginState)).length = 1 ∧
    (sessionsOf "u1"
      (logoutAllOp "u1" (logoutOp none (some "st1") singleLoginState))).length = 0 ∧
    (tokensOf "u1"
      (logoutAllOp "u1" (logoutOp none (some "st1") singleLoginState))).length = 0 :=
  logout_then_logoutAll_counts "u1" "st1" 10 ⟨"u1", "rt1", 20⟩ singleLoginState
    (by decide) (by decide)

/-- C10: a login attempt naming no active user and a login attempt naming
an existing user but carrying a wrong password produce the very same
AUTH_INVALID outcome — the identical rejection value — and neither
changes the store, so a caller cannot tell whether the account exists. -/
theorem login_uniform_invalid (C : Crypto) (now : Nat)
    (e₁ p₁ e₂ p₂ rta sta rtb stb : String) (s : AuthState)
    (he₁ : ¬ e₁ = "") (hp₁ : ¬ p₁ = "")
    (he₂ : ¬ e₂ = "") (hp₂ : ¬ p₂ = "")
    (h1 : s.users.find?
        (fun u => (u.email == e₁ || u.username == e₁) && u.isActive) = none)
    (h2 : ∃ u, s.users.find?
        (fun u => (u.email == e₂ || u.username == e₂) && u.isActive) = some u ∧
        verifyPassword C p₂ u.password = false) :
    loginOp C now e₁ p₁ rta sta s = (s, Except.error AuthErr.invalidCredentials) ∧
    loginOp C now e₂ p₂ rtb stb s = (s, Except.error AuthErr.invalidCredentials) ∧
    loginOp C now e₁ p₁ rta sta s = loginOp C now e₂ p₂ rtb stb s ∧
    taxonOf AuthErr.invalidCredentials = Taxon.AUTH_INVALID := by
  obtain ⟨u, hfind, hver⟩ := h2
  have q1 : loginOp C now e₁ p₁ rta sta s =
      (s, Except.error AuthErr.invalidCredentials) := by
    have hne : (e₁ == "") = false := by simp [he₁]
    have hnp : (p₁ == "") = false := by simp [hp₁]
    simp [loginOp, hne, hnp, h1]
  have q2 : loginOp C now e₂ p₂ rtb stb s =
      (s, Except.error AuthErr.invalidCredentials) := by
    have hne : (e₂ == "") = false := by simp [he₂]
    have hnp : (p₂ == "") = false := by simp [hp₂]
    simp [loginOp, hne, hnp, hfind, hver]
  exact ⟨q1, q2, q1.trans q2.symm, rfl⟩

/-- C10 witness: in the concrete store, login as the unknown "nobody"
and login as the existing "a" with a wrong password yield the identical
invalid-credentials outcome and no state change. -/
theorem login_uniform_invalid_app :
    loginOp cryptoA 0 "nobody" "pw0" "r1" "s1" singleLoginState =
      (singleLoginState, Except.error AuthErr.invalidCredentials) ∧
    loginOp cryptoA 0 "a" "wrong" "r2" "s2" singleLoginState =
      (singleLoginState, Except.error AuthErr.invalidCredentials) := by
  have h := login_uniform_invalid cryptoA 0 "nobody" "pw0" "a" "wrong"
    "r1" "s1" "r2" "s2" singleLoginState
    (by decide) (by decide) (by decide) (by decide) (by decide)
    ⟨⟨"u1", "a@x.com", "a", "pw0", "USER", true, 0, 0⟩, by decide, by decide⟩
  exact ⟨h.1, h.2.1⟩

/-- C7: every password stored by a successful registration or password
change is the adaptive (bcrypt, cost 12) hash, classifies as the
adaptive shape of section 4.1, and re-verifying the plaintext against it
goes through the adaptive dispatch branch and succeeds — given that the
adaptive hasher's output for this password matches the adaptive shape
and comparison accepts the password against its own hash (bcryptjs
guarantees both). -/
theorem new_credentials_adaptive (C : Crypto) (pw : String)
    (hshape : bcryptShapeTest (C.bcryptHash pw 12) = true)
    (hself : C.bcryptCompare pw (C.bcryptHash pw 12) = true) :
    (∀ now email username role newId newRT s out,
       (registerOp C now email username pw role newId newRT s).2 =
           Except.ok out →
       ∃ u, (registerOp C now email username pw role newId newRT s).1.users =
              s.users ++ [u] ∧
         u.password = C.bcryptHash pw 12 ∧
         classify u.password = HashKind.adaptive ∧
         verifyPassword C pw u.password = C.bcryptCompare pw u.password ∧
         verifyPassword C pw u.password = true) ∧
    (∀ uid current s,
       (changePasswordOp C (some uid) current pw s).2 = Except.ok () →
       ∀ u, u ∈ (changePasswordOp C (some uid) current pw s).1.users →
         u.id = uid →
         u.password = C.bcryptHash pw 12 ∧
         classify u.password = HashKind.adaptive ∧
         verifyPassword C pw u.password = C.bcryptCompare pw u.password ∧
         verifyPassword C pw u.password = true) := by
  have hcl : classify (C.bcryptHash pw 12) = HashKind.adaptive := by
    simp [classify, hshape]
  have hvb : verifyPassword C pw (C.bcryptHash pw 12) =
      C.bcryptCompare pw (C.bcryptHash pw 12) := by
    simp [verifyPassword, hshape]
  constructor
  · intro now email username role newId newRT s out hok
    by_cases hv : (email == "" || username == "" || pw == "") = true
    · simp [registerOp, hv] at hok
    · cases hfind : s.users.find?
          (fun u => u.email == email || u.username == username) with
      | some w => simp [registerOp, hv, hfind] at hok
      | none =>
          refine ⟨⟨newId, email, username, C.bcryptHash pw 12, role, true,
            now, now⟩, ?_, rfl, hcl, hvb, hvb.trans hself⟩
          simp [registerOp, hv, hfind]
  · intro uid current s hok u hu huid
    by_cases hv : (current == "" || pw == "") = true
    · simp [changePasswordOp, hv] at hok
    · by_cases hl : pw.length < 6
      · simp [changePasswordOp, hv, hl] at hok
      · cases hfind : s.users.find? (fun v => v.id == uid) with
        | none => simp [changePasswordOp, hv, hl, hfind] at hok
        | some w =>
            by_cases hcmp : C.bcryptCompare current w.password = true
            · simp only [changePasswordOp, hv, hl, hfind, hcmp] at hu
              simp only [Bool.false_eq_true, if_false, decide_eq_true_eq,
                if_true] at hu
              obtain ⟨v, hv2, rfl⟩ := List.mem_map.mp (by simpa using hu)
              by_cases hid : (v.id == uid) = true
              · have hid2 : v.id = uid := by simpa using hid
                refine ⟨?_, ?_, ?_, ?_⟩ <;>
                  simp [hid2, hcl, hvb, hself, hvb.trans hself]
              · have hid2 : ¬ v.id = uid := by simpa using hid
                rw [if_neg hid2] at huid
                exact absurd huid hid2
            · simp [changePasswordOp, hv, hl, hfind, hcmp] at hok

/-- A fixed adaptive-shaped credential string for concrete runs: the
seven-character preamble and a 53-character remainder. -/
def bhash0 : String :=
  "$2b$12$abcdefghijklmnopqrstuvwxyzabcdefghijklmnopqrstuvwxyza"

/-- A crypto instance whose hasher returns the fixed adaptive-shaped
string and whose comparison accepts exactly "pw1234" against it. -/
def cryptoB : Crypto :=
  ⟨fun _ _ => bhash0, fun p h => p == "pw1234" && h == bhash0, fun _ => ""⟩

/-- C7 witness: registering "pw1234" in the empty store stores the
adaptive-shaped credential and re-verifying succeeds via the adaptive
branch. -/
theorem new_credentials_adaptive_app :
    ∃ u, (registerOp cryptoB 0 "a@x.com" "a" "pw1234" "USER" "id1" "rt1"
            ⟨[], [], []⟩).1.users = [] ++ [u] ∧
      u.password = cryptoB.bcryptHash "pw1234" 12 ∧
      classify u.password = HashKind.adaptive ∧
      verifyPassword cryptoB "pw1234" u.password =
        cryptoB.bcryptCompare "pw1234" u.password ∧
      verifyPassword cryptoB "pw1234" u.password = true :=
  (new_credentials_adaptive cryptoB "pw1234" (by decide) (by decide)).1
    0 "a@x.com" "a" "USER" "id1" "rt1" ⟨[], [], []⟩
    ⟨"id1", ⟨"id1", "a@x.com", "USER"⟩, "rt1"⟩ rfl

/-- A legacy 64-hex-character fixed digest, as the users service stores
them. -/
def legacyDigest0 : String :=
  "fcf730b6d95236ecd3c9fc2d92d7b6b2bb061514961aec041d6c7a7192f592e4"

/-- A store whose only user carries the legacy fixed-digest credential. -/
def legacyUserState : AuthState :=
  ⟨[⟨"u1", "a@x.com", "a", legacyDigest0, "USER", true, 0, 0⟩], [], []⟩

/-- C4: the code bug behind the claim.  For a user whose stored
credential is a legacy 64-hex digest of the correct current password,
the multi-encoding verifier accepts that password, yet `changePassword`
— which calls the adaptive comparison directly instead of the verifier —
rejects it as "Current password is incorrect" and leaves the store
unchanged.  The hypotheses state the digest relation and bcryptjs's
documented rejection of a non-adaptive-shaped stored hash. -/
theorem changePassword_rejects_legacy_credential (C : Crypto)
    (hsha : C.sha256hex "secret123" = legacyDigest0)
    (hbc : C.bcryptCompare "secret123" legacyDigest0 = false) :
    verifyPassword C "secret123" legacyDigest0 = true ∧
    changePasswordOp C (some "u1") "secret123" "newpass99" legacyUserState =
      (legacyUserState, Except.error AuthErr.currentPasswordIncorrect) := by
  constructor
  · have hb : bcryptShapeTest legacyDigest0 = false := by decide
    have hs : sha256ShapeTest legacyDigest0 = true := by decide
    simp [verifyPassword, hb, hs, hsha]
  · have hfind : legacyUserState.users.find? (fun v => v.id == "u1") =
        some ⟨"u1", "a@x.com", "a", legacyDigest0, "USER", true, 0, 0⟩ := by
      decide
    simp [changePasswordOp, hfind, hbc]
    decide

/-- A crypto instance whose SHA-256 maps everything to the fixed legacy
digest and whose adaptive comparison always fails, matching the two
hypotheses at the concrete failing input. -/
def cryptoC : Crypto :=
  ⟨fun _ _ => "", fun _ _ => false, fun _ => legacyDigest0⟩

/-- C4 witness: the concrete divergence — the verifier accepts the
password, the password-change endpoint rejects it. -/
theorem changePassword_rejects_legacy_credential_app :
    verifyPassword cryptoC "secret123" legacyDigest0 = true ∧
    changePasswordOp cryptoC (some "u1") "secret123" "newpass99"
        legacyUserState =
      (legacyUserState, Except.error AuthErr.currentPasswordIncorrect) :=
  changePassword_rejects_legacy_credential cryptoC rfl rfl

end ToukAuth
